import Mathlib

/- Shallow embedding of libvips/foreign/openslide.c (the OpenSlide-based slide
   reader).  Pure values model the C data; the opaque OpenSlide backend is a
   record of response functions (the C code only observes it through those
   calls).  Machine integers are modelled as Int with explicit wrapping or
   clamping where the C semantics demand it (int32_t assignment, strtol
   clamping on an LP64 platform, INT_MAX checks).  The C double `downsample`
   is modelled as a rational: every arithmetic step the claims exercise
   (multiplication by 1.0, sign test against 0) is exact in both. -/

/- ### Tile constants (openslide.c lines 73-74) -/

def TILE_WIDTH : Nat := 256
def TILE_HEIGHT : Nat := 256

/- ### fill_region (openslide.c lines 249-288) -/

/-- `VipsRect out->valid`: the requested output rectangle. -/
structure VipsRect where
  left : Int
  top : Int
  width : Nat
  height : Nat
  deriving DecidableEq

/-- One call to `openslide_read_region`: destination offset inside the output
image (`VIPS_REGION_ADDR(out, r->left + x, r->top + y)`), source origin
(`(r->left + x) * downsample`, `(r->top + y) * downsample`, a C double), and
the chunk size `w`, `h`. -/
structure ChunkRead where
  destx : Int
  desty : Int
  srcx : ℚ
  srcy : ℚ
  w : Nat
  h : Nat
  deriving DecidableEq

/-- Trip values of the C loop `for (x = 0; x < len; x += t)` (t > 0):
`0, t, 2*t, ...` while `< len`. -/
def tileStarts (t len : Nat) : List Nat :=
  (List.range ((len + t - 1) / t)).map (fun i => i * t)

/-- The sequence of `openslide_read_region` calls issued by `fill_region`
for a requested rectangle `r`: y-loop outer (stepping TILE_HEIGHT), x-loop
inner (stepping TILE_WIDTH), chunk size `min(TILE, remaining)`. -/
def fill_region_reads (r : VipsRect) (downsample : ℚ) : List ChunkRead :=
  (tileStarts TILE_HEIGHT r.height).flatMap (fun (y : Nat) =>
    (tileStarts TILE_WIDTH r.width).map (fun (x : Nat) =>
      { destx := r.left + (x : Int),
        desty := r.top + (y : Int),
        srcx := ((r.left + (x : Int) : Int) : ℚ) * downsample,
        srcy := ((r.top + (y : Int) : Int) : ℚ) * downsample,
        w := min TILE_WIDTH (r.width - x),
        h := min TILE_HEIGHT (r.height - y) }))

/-- Point membership in the requested rectangle. -/
def inRect (r : VipsRect) (X Y : Int) : Prop :=
  r.left ≤ X ∧ X < r.left + (r.width : Int) ∧
  r.top ≤ Y ∧ Y < r.top + (r.height : Int)

instance (r : VipsRect) (X Y : Int) : Decidable (inRect r X Y) := by
  unfold inRect; exact inferInstance

/-- Point membership in the destination area written by one chunk read. -/
def containsPt (c : ChunkRead) (X Y : Int) : Prop :=
  c.destx ≤ X ∧ X < c.destx + (c.w : Int) ∧
  c.desty ≤ Y ∧ Y < c.desty + (c.h : Int)

instance (c : ChunkRead) (X Y : Int) : Decidable (containsPt c X Y) := by
  unfold containsPt; exact inferInstance

/-- C truncation-toward-zero of a double to an integer (the implicit
conversion of `(r->left + x) * downsample` to openslide's int64 argument). -/
def truncQ (q : ℚ) : Int := if 0 ≤ q then ⌊q⌋ else ⌈q⌉

/-- Backend semantics of one `openslide_read_region` call at downsample 1.0:
with level-0 pixel content `B`, the destination pixel at offset `(i, j)`
inside the chunk receives `B (srcx + i) (srcy + j)`. -/
def chunkVal (B : Int → Int → Nat) (c : ChunkRead) (X Y : Int) : Nat :=
  B (truncQ c.srcx + (X - c.destx)) (truncQ c.srcy + (Y - c.desty))

/-- Effect of one chunk read on the destination buffer (modelled as a map
from absolute output coordinates to an optional pixel). -/
def applyRead (B : Int → Int → Nat) (f : Int → Int → Option Nat)
    (c : ChunkRead) : Int → Int → Option Nat :=
  fun X Y => if containsPt c X Y then some (chunkVal B c X Y) else f X Y

/-- Destination buffer after executing a list of chunk reads in order,
starting from an unwritten buffer. -/
def runReads (B : Int → Int → Nat) (reads : List ChunkRead) :
    Int → Int → Option Nat :=
  reads.foldl (applyRead B) (fun _ _ => none)

/-- The hypothetical single backend read over the whole rectangle. -/
def singleRead (r : VipsRect) (downsample : ℚ) : ChunkRead :=
  { destx := r.left, desty := r.top,
    srcx := ((r.left : Int) : ℚ) * downsample,
    srcy := ((r.top : Int) : ℚ) * downsample,
    w := r.width, h := r.height }

/- ### C integer ranges and libc parsing -/

def INT_MAX : Int := 2147483647
def LONG_MAX : Int := 9223372036854775807
def LONG_MIN : Int := -9223372036854775808

/-- Assignment of a wider integer to `int32_t` (two's-complement wrap, the
behavior of the mainstream compilers targeted by libvips). -/
def wrap32 (n : Int) : Int := (n + 2147483648) % 4294967296 - 2147483648

/-- `strtol` clamps an out-of-range value to `LONG_MAX` / `LONG_MIN`
(C99 7.20.1.4; `long` is 64-bit on the LP64 platforms modelled here). -/
def clampLong (n : Int) : Int :=
  if n < LONG_MIN then LONG_MIN else if LONG_MAX < n then LONG_MAX else n

def isSpaceC (c : Char) : Bool :=
  c = ' ' || c = '\t' || c = '\n' || c = '\r' || c = '\x0b' || c = '\x0c'

def digitsVal (l : List Char) : Nat :=
  l.foldl (fun a c => 10 * a + (c.toNat - 48)) 0

/-- `strtol(s, &endp, 10)` before clamping: the mathematical value of the
parsed integer (if any digits were consumed) and the suffix `endp` points to.
When no conversion is performed, `endp` is the whole input. -/
def parseLong (s : List Char) : Option Int × List Char :=
  let t0 := s.dropWhile isSpaceC
  let sign : Int :=
    match t0 with
    | '-' :: _ => -1
    | _ => 1
  let t1 :=
    match t0 with
    | '-' :: r => r
    | '+' :: r => r
    | _ => t0
  let digs := t1.takeWhile Char.isDigit
  let rest := t1.dropWhile Char.isDigit
  if digs = [] then (none, s)
  else (some (sign * (digitsVal digs : Int)), rest)

/-- The `long` returned by `strtol(s, _, 10)` (0 when no conversion). -/
def strtolVal (s : List Char) : Int :=
  match (parseLong s).1 with
  | some n => clampLong n
  | none => 0

def isHexDigitC (c : Char) : Bool :=
  c.isDigit || ('a' ≤ c && c ≤ 'f') || ('A' ≤ c && c ≤ 'F')

def hexDigitVal (c : Char) : Nat :=
  if c.isDigit then c.toNat - 48
  else if 'a' ≤ c && c ≤ 'f' then c.toNat - 87
  else c.toNat - 55

def hexVal (l : List Char) : Nat :=
  l.foldl (fun a c => 16 * a + hexDigitVal c) 0

def ULONG_MAX : Nat := 18446744073709551615

/-- `strtoul(s, NULL, 16)`: optional space and sign, optional 0x marker,
longest hex-digit run; clamped to ULONG_MAX, negated modulo 2^64 under a
minus sign. -/
def strtoul16 (s : List Char) : Nat :=
  let t0 := s.dropWhile isSpaceC
  let neg : Bool :=
    match t0 with
    | '-' :: _ => true
    | _ => false
  let t1 :=
    match t0 with
    | '-' :: r => r
    | '+' :: r => r
    | _ => t0
  let t2 :=
    match t1 with
    | '0' :: 'x' :: r => if (r.takeWhile isHexDigitC) ≠ [] then r else t1
    | '0' :: 'X' :: r => if (r.takeWhile isHexDigitC) ≠ [] then r else t1
    | _ => t1
  let v0 := hexVal (t2.takeWhile isHexDigitC)
  let v1 := min v0 ULONG_MAX
  if neg then (ULONG_MAX + 1 - v1) % (ULONG_MAX + 1) else v1

/- ### The OpenSlide backend collaborator, abstracted as response functions -/

structure Backend where
  openOk : Bool
  layerCount : Int
  layerDims : Int → Int × Int
  layerDownsample : Int → ℚ
  associatedNames : List String
  assocDims : String → Int × Int
  properties : List (String × String)
  background : Option String
  errorMsg : Option String

/- ### readslide_new (openslide.c lines 136-235) and its observable trace -/

inductive SlideError where
  | OpenFailure
  | InvalidLayer
  | InvalidAssociatedName
  | DimensionQuery
  | DimensionOverflow
  | ReadFailure
  deriving DecidableEq

inductive MetaVal where
  | str : String → MetaVal
  | int : Int → MetaVal
  deriving DecidableEq

inductive DemandStyle where
  | smalltile
  | thinstrip
  deriving DecidableEq

inductive VipsBandFormat where
  | uchar
  deriving DecidableEq

/-- VIPS_CODING_NONE. -/
inductive VipsCoding where
  | noCoding
  deriving DecidableEq

/-- VIPS_INTERPRETATION_RGB. -/
inductive VipsInterpretation where
  | rgb
  deriving DecidableEq

/-- Arguments of `vips_image_init_fields`. -/
structure VipsImageFields where
  width : Int
  height : Int
  bands : Nat
  format : VipsBandFormat
  coding : VipsCoding
  interpretation : VipsInterpretation
  xres : ℚ
  yres : ℚ
  deriving DecidableEq

/-- Observable outcome of one `readslide_new` call: the ReadSlide fields
(osr, layer, associated, downsample), everything attached to the output
image (metadata in attachment order, demand hint, init_fields arguments),
whether the destroy callback was connected, and the error classification of
the failure (if any). -/
structure RSTrace where
  connected : Bool
  osr : Option Unit
  layer : Int
  associated : Option String
  downsample : ℚ
  meta : List (String × MetaVal)
  hint : Option DemandStyle
  fields : Option VipsImageFields
  result : Option SlideError
  deriving DecidableEq

/-- An early-return failure trace: nothing attached to the image yet. -/
def failTrace (osr : Option Unit) (layer : Int) (e : SlideError) : RSTrace :=
  { connected := true, osr := osr, layer := layer, associated := none,
    downsample := 0, meta := [], hint := none, fields := none,
    result := some e }

/-- Lines 182-196: the dimensions queried for the active selector. -/
def queriedDims (bk : Backend) (layer : Int) (assoc : Option String) :
    Int × Int :=
  match assoc with
  | some name => bk.assocDims name
  | none => bk.layerDims layer

/-- Lines 182-196: the downsample in effect (stays at its zero-initialized
value in associated mode). -/
def queriedDs (bk : Backend) (layer : Int) (assoc : Option String) : ℚ :=
  match assoc with
  | some _ => 0
  | none => bk.layerDownsample layer

/-- Lines 185-194: the synthetic selector metadata entry. -/
def selectorMeta (layer : Int) (assoc : Option String) : String × MetaVal :=
  match assoc with
  | some name => ("slide-associated-image", MetaVal.str name)
  | none => ("slide-layer", MetaVal.int layer)

/-- Lines 187/195: the demand hint for the active selector. -/
def hintOf (assoc : Option String) : DemandStyle :=
  match assoc with
  | some _ => DemandStyle.thinstrip
  | none => DemandStyle.smalltile

/-- Lines 200-206: the `background-rgb` value (an `int`). -/
def backgroundVal (bk : Backend) : Int :=
  match bk.background with
  | some s => wrap32 ((strtoul16 s.data : Nat) : Int)
  | none => 16777215

/-- `readslide_new` from line 182 on (after mode resolution): query the
selector's dimensions/downsample, attach selector metadata and demand hint,
attach background-rgb, then validate dimensions, then init the image fields
and copy the property map. -/
def readslide_after (bk : Backend) (layer : Int) (assoc : Option String) :
    RSTrace :=
  let wh := queriedDims bk layer assoc
  let ds := queriedDs bk layer assoc
  let meta1 := [selectorMeta layer assoc,
                ("background-rgb", MetaVal.int (backgroundVal bk))]
  if wh.1 < 0 ∨ wh.2 < 0 ∨ ds < 0 then
    { connected := true, osr := some (), layer := layer, associated := assoc,
      downsample := ds, meta := meta1, hint := some (hintOf assoc),
      fields := none, result := some SlideError.DimensionQuery }
  else if INT_MAX < wh.1 ∨ INT_MAX < wh.2 then
    { connected := true, osr := some (), layer := layer, associated := assoc,
      downsample := ds, meta := meta1, hint := some (hintOf assoc),
      fields := none, result := some SlideError.DimensionOverflow }
  else
    { connected := true, osr := some (), layer := layer, associated := assoc,
      downsample := ds,
      meta := meta1 ++ bk.properties.map (fun p => (p.1, MetaVal.str p.2))
        ++ [("slide-associated-images",
             MetaVal.str (String.intercalate ", " bk.associatedNames))],
      hint := some (hintOf assoc),
      fields := some { width := wh.1, height := wh.2, bands := 4,
                       format := VipsBandFormat.uchar,
                       coding := VipsCoding.noCoding,
                       interpretation := VipsInterpretation.rgb,
                       xres := 1, yres := 1 },
      result := none }

/-- `readslide_new(filename, out)`: connect the destroy callback, open the
backend, resolve the mode string (layer number / associated name), then
continue with `readslide_after`.  `mode` is the mode part of the split
filename; the backend abstracts the path itself. -/
def readslide_new (bk : Backend) (mode : String) : RSTrace :=
  if bk.openOk = false then failTrace none 0 SlideError.OpenFailure
  else
    let m := mode.data
    let layer := wrap32 (strtolVal m)
    if m ≠ [] ∧ (parseLong m).2 = [] then
      if layer < 0 ∨ bk.layerCount ≤ layer then
        failTrace (some ()) layer SlideError.InvalidLayer
      else readslide_after bk layer none
    else if m ≠ [] then
      if mode ∈ bk.associatedNames then readslide_after bk layer (some mode)
      else failTrace (some ()) layer SlideError.InvalidAssociatedName
    else readslide_after bk layer none

/-- `readslide_destroy_cb` / `VIPS_FREEF(openslide_close, rslide->osr)`:
closes the resource if still held, nulls the pointer; returns the new state
and how many `openslide_close` calls were made. -/
def readslide_destroy_cb (osr : Option Unit) : Option Unit × Nat :=
  match osr with
  | some _ => (none, 1)
  | none => (none, 0)

/- ### vips__openslide_read_file (openslide.c lines 290-323) -/

/-- Observable outcome of `vips__openslide_read_file`: the readslide trace,
whether `vips_image_generate(fill_region)` was registered, and the
`im_tile_cache` arguments (tile width, tile height, capacity). -/
structure FileTrace where
  rs : RSTrace
  generator : Bool
  cacheArgs : Option (Nat × Nat × Int)
  deriving DecidableEq

/-- `vips__openslide_read_file`: readslide_new on the raw image, register
the fill_region generator, wrap in a tile cache of capacity
`(int) (1.5 * (1 + raw->Xsize / TILE_WIDTH))`.  The double 1.5*k is exact
and nonnegative here, so the int cast is `(3*k)/2` in integer division. -/
def vips__openslide_read_file (bk : Backend) (mode : String) : FileTrace :=
  let rs := readslide_new bk mode
  match rs.result, rs.fields with
  | none, some f =>
      { rs := rs, generator := true,
        cacheArgs := some (TILE_WIDTH, TILE_HEIGHT,
          3 * (1 + f.width / (TILE_WIDTH : Int)) / 2) }
  | _, _ => { rs := rs, generator := false, cacheArgs := none }

/-- The cache-capacity formula as the spec words it:
`capacity(imageWidth, tileEdge) = ceil(1.5 * ceil(imageWidth / tileEdge))`
(stated for comparison with the code's formula). -/
def specCacheCapacity (imageWidth tileEdge : Nat) : Nat :=
  (3 * ((imageWidth + tileEdge - 1) / tileEdge) + 1) / 2

/- ### vips__openslide_read_associated (openslide.c lines 325-376) -/

/-- Observable outcome of `vips__openslide_read_associated`: the readslide
trace, the buffer allocation (number of uint32 pixels) if one occurred, the
number of rows written out, and the failure classification. -/
structure AssocTrace where
  rs : RSTrace
  allocated : Option Int
  rowsWritten : Int
  failure : Option SlideError
  deriving DecidableEq

/-- `vips__openslide_read_associated`: readslide_new, re-query the
associated image's dimensions, check the -1 sentinel, allocate `w * h`
pixels, eager whole-image decode, check the backend error state, write the
rows.  (When the handle is not in associated mode the C code would pass a
NULL name to the backend; the claims only exercise associated-mode calls, so
that branch is left as an inert trace.) -/
def vips__openslide_read_associated (bk : Backend) (mode : String) :
    AssocTrace :=
  let rs := readslide_new bk mode
  if rs.result.isSome then
    { rs := rs, allocated := none, rowsWritten := 0, failure := rs.result }
  else
    match rs.associated with
    | none => { rs := rs, allocated := none, rowsWritten := 0, failure := none }
    | some name =>
      let wh := bk.assocDims name
      if wh.1 = -1 ∨ wh.2 = -1 then
        { rs := rs, allocated := none, rowsWritten := 0,
          failure := some SlideError.DimensionQuery }
      else if bk.errorMsg.isSome then
        { rs := rs, allocated := some (wh.1 * wh.2), rowsWritten := 0,
          failure := some SlideError.ReadFailure }
      else
        { rs := rs, allocated := some (wh.1 * wh.2), rowsWritten := wh.2,
          failure := none }

/- ### Concrete backends used by counterexamples and witnesses -/

/-- A well-behaved slide: 3 layers of 2000 x 1000 at downsample 1, one
associated image "label" of 40 x 30, one property, no background property,
no pending error. -/
def bkL : Backend :=
  { openOk := true, layerCount := 3,
    layerDims := fun _ => (2000, 1000),
    layerDownsample := fun _ => 1,
    associatedNames := ["label"],
    assocDims := fun _ => (40, 30),
    properties := [("openslide.vendor", "aperio")],
    background := none, errorMsg := none }

/-- Same slide but the backend reports layer dimensions (-1, -1). -/
def bkNeg : Backend := { bkL with layerDims := fun _ => (-1, -1) }

/-- Same slide but the associated image's dimensions are (-1, -1). -/
def bkAssocNeg : Backend := { bkL with assocDims := fun _ => (-1, -1) }

/-- Same slide but layer width exactly 256 (one whole tile per row). -/
def bk256 : Backend := { bkL with layerDims := fun _ => (256, 100) }

lemma mem_tileStarts {len x : Nat} :
    x ∈ tileStarts 256 len ↔ x % 256 = 0 ∧ x < len := by
  simp only [tileStarts, List.mem_map, List.mem_range]
  constructor
  · rintro ⟨i, hi, rfl⟩
    omega
  · rintro ⟨h1, h2⟩
    exact ⟨x / 256, by omega, by omega⟩

lemma mem_fill_region_reads {r : VipsRect} {d : ℚ} {c : ChunkRead} :
    c ∈ fill_region_reads r d ↔
      ∃ x y : Nat, x % 256 = 0 ∧ x < r.width ∧ y % 256 = 0 ∧ y < r.height ∧
        c = { destx := r.left + (x : Int), desty := r.top + (y : Int),
              srcx := ((r.left + (x : Int) : Int) : ℚ) * d,
              srcy := ((r.top + (y : Int) : Int) : ℚ) * d,
              w := min 256 (r.width - x),
              h := min 256 (r.height - y) } := by
  simp only [fill_region_reads, TILE_WIDTH, TILE_HEIGHT, List.mem_flatMap,
    List.mem_map, mem_tileStarts]
  constructor
  · rintro ⟨y, ⟨hy1, hy2⟩, x, ⟨hx1, hx2⟩, rfl⟩
    exact ⟨x, y, hx1, hx2, hy1, hy2, rfl⟩
  · rintro ⟨x, y, hx1, hx2, hy1, hy2, rfl⟩
    exact ⟨y, ⟨hy1, hy2⟩, x, ⟨hx1, hx2⟩, rfl⟩

lemma partition_exists_unique (r : VipsRect) (d : ℚ) (X Y : Int)
    (h : inRect r X Y) :
    ∃! c, c ∈ fill_region_reads r d ∧ containsPt c X Y := by
  obtain ⟨h1, h2, h3, h4⟩ := h
  refine ⟨{ destx := r.left + (256 * ((X - r.left).toNat / 256) : Nat),
            desty := r.top + (256 * ((Y - r.top).toNat / 256) : Nat),
            srcx := ((r.left + (256 * ((X - r.left).toNat / 256) : Nat) : Int) : ℚ) * d,
            srcy := ((r.top + (256 * ((Y - r.top).toNat / 256) : Nat) : Int) : ℚ) * d,
            w := min 256 (r.width - 256 * ((X - r.left).toNat / 256)),
            h := min 256 (r.height - 256 * ((Y - r.top).toNat / 256)) },
          ⟨?_, ?_⟩, ?_⟩
  · rw [mem_fill_region_reads]
    exact ⟨256 * ((X - r.left).toNat / 256), 256 * ((Y - r.top).toNat / 256),
      by omega, by omega, by omega, by omega, rfl⟩
  · refine ⟨by simp; omega, by simp; omega, by simp; omega, by simp; omega⟩
  · rintro c' ⟨hmem, hcont⟩
    rw [mem_fill_region_reads] at hmem
    obtain ⟨x, y, hx1, hx2, hy1, hy2, rfl⟩ := hmem
    obtain ⟨hc1, hc2, hc3, hc4⟩ := hcont
    simp only at hc1 hc2 hc3 hc4
    have hx : x = 256 * ((X - r.left).toNat / 256) := by omega
    have hy : y = 256 * ((Y - r.top).toNat / 256) := by omega
    subst hx; subst hy; rfl

lemma truncQ_intCast (n : Int) : truncQ ((n : Int) : ℚ) = n := by
  unfold truncQ
  split_ifs <;> simp

lemma inRect_of_mem_contains {r : VipsRect} {d : ℚ} {c : ChunkRead}
    (hmem : c ∈ fill_region_reads r d) {X Y : Int} (hcont : containsPt c X Y) :
    inRect r X Y := by
  rw [mem_fill_region_reads] at hmem
  obtain ⟨x, y, hx1, hx2, hy1, hy2, rfl⟩ := hmem
  obtain ⟨hc1, hc2, hc3, hc4⟩ := hcont
  simp only at hc1 hc2 hc3 hc4
  exact ⟨by omega, by omega, by omega, by omega⟩

lemma chunkVal_eq {r : VipsRect} {B : Int → Int → Nat} {c : ChunkRead}
    (hc : c ∈ fill_region_reads r 1) {X Y : Int} (h : containsPt c X Y) :
    chunkVal B c X Y = B X Y := by
  rw [mem_fill_region_reads] at hc
  obtain ⟨x, y, _, _, _, _, rfl⟩ := hc
  simp only [chunkVal, mul_one, truncQ_intCast]
  congr 1 <;> omega

lemma foldl_applyRead_some (B : Int → Int → Nat) (l : List ChunkRead)
    (f : Int → Int → Option Nat) (X Y : Int) (v : Nat)
    (hall : ∀ c ∈ l, containsPt c X Y → chunkVal B c X Y = v)
    (hex : (∃ c ∈ l, containsPt c X Y) ∨ f X Y = some v) :
    l.foldl (applyRead B) f X Y = some v := by
  induction l generalizing f with
  | nil =>
    rcases hex with ⟨c, hc, _⟩ | hf
    · exact absurd hc (List.not_mem_nil c)
    · exact hf
  | cons c t ih =>
    rw [List.foldl_cons]
    apply ih
    · exact fun c' hc' => hall c' (List.mem_cons_of_mem _ hc')
    · by_cases hc : containsPt c X Y
      · right
        simp only [applyRead, if_pos hc]
        rw [hall c (List.mem_cons_self _ _) hc]
      · rcases hex with ⟨c', hc', hcont'⟩ | hf
        · rcases List.mem_cons.mp hc' with rfl | h'
          · exact absurd hcont' hc
          · exact Or.inl ⟨c', h', hcont'⟩
        · right
          simp only [applyRead, if_neg hc]
          exact hf

lemma runReads_fill_eq (r : VipsRect) (B : Int → Int → Nat) (X Y : Int)
    (h : inRect r X Y) :
    runReads B (fill_region_reads r 1) X Y = some (B X Y) := by
  apply foldl_applyRead_some
  · exact fun c hc hcont => chunkVal_eq hc hcont
  · obtain ⟨c, ⟨hmem, hcont⟩, -⟩ := partition_exists_unique r 1 X Y h
    exact Or.inl ⟨c, hmem, hcont⟩

lemma runReads_single_eq (r : VipsRect) (B : Int → Int → Nat) (X Y : Int)
    (h : inRect r X Y) :
    runReads B [singleRead r 1] X Y = some (B X Y) := by
  obtain ⟨h1, h2, h3, h4⟩ := h
  simp only [runReads, List.foldl_cons, List.foldl_nil, applyRead, singleRead]
  rw [if_pos ⟨h1, h2, h3, h4⟩]
  simp only [chunkVal, mul_one, truncQ_intCast]
  congr 2 <;> simp

/-- Claim C1: `fill_region` partitions every requested output rectangle into a
row-major grid of chunks of at most 256x256; every chunk's source origin is its
absolute destination offset scaled by the downsample factor and its size is
`(min 256 remainingWidth, min 256 remainingHeight)`; each point of the
rectangle lies in exactly one chunk (no gaps, no overlaps); for a 300x300
region at origin (0,0) with downsample 1.0 exactly four chunk reads occur,
256x256 at (0,0), 44x256 at (256,0), 256x44 at (0,256) and 44x44 at (256,256);
and at downsample 1.0 the assembled buffer equals the buffer produced by one
single backend read over the same rectangle. -/
theorem C1_region_fill_chunking :
    (fill_region_reads ⟨0, 0, 300, 300⟩ 1 =
      [⟨0, 0, 0, 0, 256, 256⟩, ⟨256, 0, 256, 0, 44, 256⟩,
       ⟨0, 256, 0, 256, 256, 44⟩, ⟨256, 256, 256, 256, 44, 44⟩])
    ∧ (∀ (r : VipsRect) (d : ℚ) (c : ChunkRead), c ∈ fill_region_reads r d →
        c.srcx = (c.destx : ℚ) * d ∧ c.srcy = (c.desty : ℚ) * d ∧
        c.w ≤ 256 ∧ c.h ≤ 256)
    ∧ (∀ (r : VipsRect) (d : ℚ) (X Y : Int),
        inRect r X Y ↔ ∃! c, c ∈ fill_region_reads r d ∧ containsPt c X Y)
    ∧ (∀ (r : VipsRect) (B : Int → Int → Nat) (X Y : Int), inRect r X Y →
        runReads B (fill_region_reads r 1) X Y = some (B X Y) ∧
        runReads B [singleRead r 1] X Y = some (B X Y)) := by
  refine ⟨?_, ?_, ?_, ?_⟩
  · have hts : tileStarts 256 300 = [0, 256] := by
      norm_num [tileStarts, List.range_succ]
    simp only [fill_region_reads, TILE_WIDTH, TILE_HEIGHT, hts, List.flatMap_cons,
      List.map_cons, List.map_nil, List.flatMap_nil, List.append_nil,
      List.cons_append, List.nil_append]
    norm_num [ChunkRead.mk.injEq]
  · intro r d c hc
    rw [mem_fill_region_reads] at hc
    obtain ⟨x, y, _, _, _, _, rfl⟩ := hc
    exact ⟨rfl, rfl, min_le_left _ _, min_le_left _ _⟩
  · intro r d X Y
    constructor
    · exact partition_exists_unique r d X Y
    · rintro ⟨c, ⟨hmem, hcont⟩, -⟩
      exact inRect_of_mem_contains hmem hcont
  · intro r B X Y h
    exact ⟨runReads_fill_eq r B X Y h, runReads_single_eq r B X Y h⟩

/-- Witness for C1 at the 300x300 rectangle, point (10,20), constant backend. -/
theorem C1_region_fill_chunking_witness :
    inRect ⟨0, 0, 300, 300⟩ 10 20 ∧
    (runReads (fun _ _ => 7) (fill_region_reads ⟨0, 0, 300, 300⟩ 1) 10 20 =
        some 7 ∧
      runReads (fun _ _ => 7) [singleRead ⟨0, 0, 300, 300⟩ 1] 10 20 = some 7) :=
  ⟨by decide, C1_region_fill_chunking.2.2.2 ⟨0, 0, 300, 300⟩ (fun _ _ => 7)
    10 20 (by decide)⟩

lemma readslide_new_open_fail (bk : Backend) (mode : String)
    (h : bk.openOk = false) :
    readslide_new bk mode = failTrace none 0 SlideError.OpenFailure := by
  simp [readslide_new, h]

lemma readslide_new_layer_path (bk : Backend) (mode : String)
    (h1 : bk.openOk = true) (h2 : mode.data ≠ [])
    (h3 : (parseLong mode.data).2 = []) :
    readslide_new bk mode =
      if wrap32 (strtolVal mode.data) < 0 ∨
          bk.layerCount ≤ wrap32 (strtolVal mode.data) then
        failTrace (some ()) (wrap32 (strtolVal mode.data))
          SlideError.InvalidLayer
      else readslide_after bk (wrap32 (strtolVal mode.data)) none := by
  simp [readslide_new, h1, h2, h3]

lemma readslide_new_assoc_path (bk : Backend) (mode : String)
    (h1 : bk.openOk = true) (h2 : mode.data ≠ [])
    (h3 : (parseLong mode.data).2 ≠ []) :
    readslide_new bk mode =
      if mode ∈ bk.associatedNames then
        readslide_after bk (wrap32 (strtolVal mode.data)) (some mode)
      else failTrace (some ()) (wrap32 (strtolVal mode.data))
        SlideError.InvalidAssociatedName := by
  simp [readslide_new, h1, h2, h3]

lemma readslide_new_empty_path (bk : Backend) (mode : String)
    (h1 : bk.openOk = true) (h2 : mode.data = []) :
    readslide_new bk mode = readslide_after bk 0 none := by
  have h0 : wrap32 (strtolVal ([] : List Char)) = 0 := by decide
  simp [readslide_new, h1, h2, h0]

lemma readslide_after_proj (bk : Backend) (layer : Int) (assoc : Option String) :
    (readslide_after bk layer assoc).connected = true ∧
    (readslide_after bk layer assoc).osr = some () ∧
    (readslide_after bk layer assoc).layer = layer ∧
    (readslide_after bk layer assoc).associated = assoc ∧
    (readslide_after bk layer assoc).hint = some (hintOf assoc) := by
  unfold readslide_after
  dsimp only
  split_ifs <;> exact ⟨rfl, rfl, rfl, rfl, rfl⟩

lemma readslide_after_result_none_iff (bk : Backend) (layer : Int)
    (assoc : Option String) :
    (readslide_after bk layer assoc).result = none ↔
      0 ≤ (queriedDims bk layer assoc).1 ∧ 0 ≤ (queriedDims bk layer assoc).2 ∧
      0 ≤ queriedDs bk layer assoc ∧
      (queriedDims bk layer assoc).1 ≤ INT_MAX ∧
      (queriedDims bk layer assoc).2 ≤ INT_MAX := by
  unfold readslide_after
  dsimp only
  split_ifs with hq ho
  · simp only [reduceCtorEq, false_iff]
    rintro ⟨a, b, c, -, -⟩
    rcases hq with h | h | h
    · exact absurd a (not_le.mpr h)
    · exact absurd b (not_le.mpr h)
    · exact absurd c (not_le.mpr h)
  · simp only [reduceCtorEq, false_iff]
    rintro ⟨-, -, -, d, e⟩
    rcases ho with h | h
    · exact absurd d (not_le.mpr h)
    · exact absurd e (not_le.mpr h)
  · push_neg at hq ho
    simp only [true_iff]
    exact ⟨hq.1, hq.2.1, hq.2.2, ho.1, ho.2⟩

lemma readslide_after_success_fields (bk : Backend) (layer : Int)
    (assoc : Option String)
    (h : (readslide_after bk layer assoc).result = none) :
    (readslide_after bk layer assoc).fields =
      some { width := (queriedDims bk layer assoc).1,
             height := (queriedDims bk layer assoc).2, bands := 4,
             format := VipsBandFormat.uchar, coding := VipsCoding.noCoding,
             interpretation := VipsInterpretation.rgb, xres := 1, yres := 1 } := by
  unfold readslide_after at h ⊢
  dsimp only at h ⊢
  split_ifs at h ⊢ <;> simp_all

lemma readslide_after_dim_fail_meta (bk : Backend) (layer : Int)
    (assoc : Option String)
    (h : (readslide_after bk layer assoc).result = some SlideError.DimensionQuery
       ∨ (readslide_after bk layer assoc).result =
            some SlideError.DimensionOverflow) :
    (readslide_after bk layer assoc).meta =
      [selectorMeta layer assoc,
       ("background-rgb", MetaVal.int (backgroundVal bk))] ∧
    (readslide_after bk layer assoc).fields = none := by
  unfold readslide_after at h ⊢
  dsimp only at h ⊢
  split_ifs at h ⊢ <;> simp_all

lemma readslide_after_dim_fail (bk : Backend) (layer : Int)
    (assoc : Option String)
    (hq : (queriedDims bk layer assoc).1 < 0 ∨
          (queriedDims bk layer assoc).2 < 0 ∨ queriedDs bk layer assoc < 0) :
    (readslide_after bk layer assoc).result =
      some SlideError.DimensionQuery := by
  unfold readslide_after
  dsimp only
  rw [if_pos hq]

lemma readslide_new_osr (bk : Backend) (mode : String) :
    (readslide_new bk mode).osr =
      (if bk.openOk = true then some () else none) ∧
    (readslide_new bk mode).connected = true := by
  by_cases h1 : bk.openOk = true
  · rw [if_pos h1]
    by_cases h2 : mode.data = []
    · rw [readslide_new_empty_path bk mode h1 h2]
      exact ⟨(readslide_after_proj bk 0 none).2.1,
             (readslide_after_proj bk 0 none).1⟩
    · by_cases h3 : (parseLong mode.data).2 = []
      · rw [readslide_new_layer_path bk mode h1 h2 h3]
        split_ifs
        · exact ⟨rfl, rfl⟩
        · exact ⟨(readslide_after_proj bk _ none).2.1,
                 (readslide_after_proj bk _ none).1⟩
      · rw [readslide_new_assoc_path bk mode h1 h2 h3]
        split_ifs
        · exact ⟨(readslide_after_proj bk _ (some mode)).2.1,
                 (readslide_after_proj bk _ (some mode)).1⟩
        · exact ⟨rfl, rfl⟩
  · have h1f : bk.openOk = false := by
      cases h : bk.openOk
      · rfl
      · exact absurd h h1
    rw [readslide_new_open_fail bk mode h1f, if_neg h1]
    exact ⟨rfl, rfl⟩

lemma readslide_new_success_inv (bk : Backend) (mode : String)
    (h : (readslide_new bk mode).result = none) :
    ∃ L A, readslide_new bk mode = readslide_after bk L A := by
  by_cases h1 : bk.openOk = true
  · by_cases h2 : mode.data = []
    · exact ⟨0, none, readslide_new_empty_path bk mode h1 h2⟩
    · by_cases h3 : (parseLong mode.data).2 = []
      · rw [readslide_new_layer_path bk mode h1 h2 h3] at h ⊢
        split_ifs at h ⊢ with hv
        · exact absurd h (by simp [failTrace])
        · exact ⟨_, none, rfl⟩
      · rw [readslide_new_assoc_path bk mode h1 h2 h3] at h ⊢
        split_ifs at h ⊢ with hv
        · exact ⟨_, some mode, rfl⟩
        · exact absurd h (by simp [failTrace])
  · have h1f : bk.openOk = false := by
      cases h' : bk.openOk
      · rfl
      · exact absurd h' h1
    rw [readslide_new_open_fail bk mode h1f] at h
    exact absurd h (by simp [failTrace])

lemma readslide_new_associated_inv (bk : Backend) (mode : String)
    (name : String)
    (h : (readslide_new bk mode).associated = some name) :
    name = mode ∧ mode ∈ bk.associatedNames ∧
    readslide_new bk mode =
      readslide_after bk (wrap32 (strtolVal mode.data)) (some mode) := by
  by_cases h1 : bk.openOk = true
  · by_cases h2 : mode.data = []
    · rw [readslide_new_empty_path bk mode h1 h2] at h
      rw [(readslide_after_proj bk 0 none).2.2.2.1] at h
      exact absurd h (by simp)
    · by_cases h3 : (parseLong mode.data).2 = []
      · rw [readslide_new_layer_path bk mode h1 h2 h3] at h
        split_ifs at h
        · exact absurd h (by simp [failTrace])
        · rw [(readslide_after_proj bk _ none).2.2.2.1] at h
          exact absurd h (by simp)
      · rw [readslide_new_assoc_path bk mode h1 h2 h3] at h
        split_ifs at h with hv
        · rw [(readslide_after_proj bk _ (some mode)).2.2.2.1] at h
          have : name = mode := by
            injection h with h'
            exact h'.symm
          exact ⟨this, hv, readslide_new_assoc_path bk mode h1 h2 h3 |>.trans
            (if_pos hv)⟩
        · exact absurd h (by simp [failTrace])
  · have h1f : bk.openOk = false := by
      cases h' : bk.openOk
      · rfl
      · exact absurd h' h1
    rw [readslide_new_open_fail bk mode h1f] at h
    exact absurd h (by simp [failTrace])

/-- Claim C5: the destroy callback is always connected; the backend resource
is held exactly when open succeeded, regardless of any later validation
failure; running the teardown callback closes the resource exactly once when
open succeeded and is a no-op for a never-opened handle; running it again is
a no-op; concretely, an out-of-range layer selector discovered post-open
still yields exactly one close. -/
theorem C5_teardown_once :
    (∀ (bk : Backend) (mode : String),
      (readslide_new bk mode).connected = true ∧
      (readslide_new bk mode).osr =
        (if bk.openOk = true then some () else none) ∧
      readslide_destroy_cb (readslide_new bk mode).osr =
        (none, if bk.openOk = true then 1 else 0) ∧
      readslide_destroy_cb (readslide_destroy_cb (readslide_new bk mode).osr).1 =
        (none, 0))
    ∧ (readslide_new bkL "9").result = some SlideError.InvalidLayer
    ∧ readslide_destroy_cb (readslide_new bkL "9").osr = (none, 1) := by
  refine ⟨fun bk mode => ?_, by decide, by decide⟩
  obtain ⟨hosr, hconn⟩ := readslide_new_osr bk mode
  refine ⟨hconn, hosr, ?_, ?_⟩
  · rw [hosr]
    by_cases h : bk.openOk = true
    · rw [if_pos h, if_pos h]; rfl
    · rw [if_neg h, if_neg h]; rfl
  · rw [hosr]
    by_cases h : bk.openOk = true
    · rw [if_pos h]; rfl
    · rw [if_neg h]; rfl

/-- Claim C3 is false as stated: with a backend reporting layer dimensions
(-1,-1), open fails with DimensionQuery yet the background-rgb metadata has
already been attached to the output image. -/
theorem C3_validation_order_counterexample :
    (readslide_new bkNeg "").result = some SlideError.DimensionQuery ∧
    ("background-rgb", MetaVal.int 16777215) ∈ (readslide_new bkNeg "").meta ∧
    (readslide_new bkNeg "").meta ≠ [] := by
  decide

lemma readslide_new_dimcase_inv (bk : Backend) (mode : String)
    (h : (readslide_new bk mode).result = some SlideError.DimensionQuery ∨
         (readslide_new bk mode).result = some SlideError.DimensionOverflow) :
    ∃ L A, readslide_new bk mode = readslide_after bk L A := by
  by_cases h1 : bk.openOk = true
  · by_cases h2 : mode.data = []
    · exact ⟨0, none, readslide_new_empty_path bk mode h1 h2⟩
    · by_cases h3 : (parseLong mode.data).2 = []
      · rw [readslide_new_layer_path bk mode h1 h2 h3] at h ⊢
        split_ifs at h ⊢ with hv
        · rcases h with h | h <;> exact absurd h (by simp [failTrace])
        · exact ⟨_, none, rfl⟩
      · rw [readslide_new_assoc_path bk mode h1 h2 h3] at h ⊢
        split_ifs at h ⊢ with hv
        · exact ⟨_, some mode, rfl⟩
        · rcases h with h | h <;> exact absurd h (by simp [failTrace])
  · have h1f : bk.openOk = false := by
      cases h' : bk.openOk
      · rfl
      · exact absurd h' h1
    rw [readslide_new_open_fail bk mode h1f] at h
    rcases h with h | h <;> exact absurd h (by simp [failTrace])

/-- Claim C3, amended: dimension/downsample validation is performed after the
selector-metadata and background-color attachment but before property-map
copying and skeleton initialization; whenever open fails with DimensionQuery
or DimensionOverflow, exactly the selector entry and the background-rgb entry
have been attached, and no fields were initialized. -/
theorem C3_validation_order (bk : Backend) (mode : String)
    (h : (readslide_new bk mode).result = some SlideError.DimensionQuery ∨
         (readslide_new bk mode).result = some SlideError.DimensionOverflow) :
    (∃ s b, (readslide_new bk mode).meta =
        [s, ("background-rgb", MetaVal.int b)] ∧
      (s.1 = "slide-layer" ∨ s.1 = "slide-associated-image")) ∧
    (readslide_new bk mode).fields = none := by
  obtain ⟨L, A, heq⟩ := readslide_new_dimcase_inv bk mode h
  rw [heq] at h ⊢
  obtain ⟨hm, hf⟩ := readslide_after_dim_fail_meta bk L A h
  refine ⟨⟨selectorMeta L A, backgroundVal bk, hm, ?_⟩, hf⟩
  cases A with
  | none => exact Or.inl rfl
  | some name => exact Or.inr rfl

/-- Witness for C3 on the negative-dimensions backend with mode "0". -/
theorem C3_validation_order_witness :
    ((readslide_new bkNeg "0").result = some SlideError.DimensionQuery ∨
     (readslide_new bkNeg "0").result = some SlideError.DimensionOverflow) ∧
    ((∃ s b, (readslide_new bkNeg "0").meta =
        [s, ("background-rgb", MetaVal.int b)] ∧
      (s.1 = "slide-layer" ∨ s.1 = "slide-associated-image")) ∧
    (readslide_new bkNeg "0").fields = none) :=
  ⟨by decide, C3_validation_order bkNeg "0" (by decide)⟩

lemma read_file_rs (bk : Backend) (mode : String) :
    (vips__openslide_read_file bk mode).rs = readslide_new bk mode := by
  unfold vips__openslide_read_file
  dsimp only
  cases hres : (readslide_new bk mode).result <;>
    cases hf : (readslide_new bk mode).fields <;> simp [hres, hf]

/-- Claim C4 is false as stated: in associated mode a successful open does
initialize the output image skeleton (with the associated image's queried
dimensions), rather than creating no skeleton. -/
theorem C4_assoc_skeleton_counterexample :
    (readslide_new bkL "label").result = none ∧
    (readslide_new bkL "label").associated = some "label" ∧
    (readslide_new bkL "label").fields ≠ none ∧
    (readslide_new bkL "label").fields =
      some { width := 40, height := 30, bands := 4,
             format := VipsBandFormat.uchar, coding := VipsCoding.noCoding,
             interpretation := VipsInterpretation.rgb, xres := 1, yres := 1 } := by
  decide

/-- Claim C4, amended: every successful open (layer or associated mode)
initializes the skeleton with 4 channels, 8-bit unsigned samples, RGB
interpretation and unit resolution; layer mode sets the small-tile demand
hint and associated mode the thin-strip hint; the fill_region demand callback
itself is registered by the layer read path right after a successful open. -/
theorem C4_skeleton_and_hints :
    (∀ (bk : Backend) (mode : String),
      (readslide_new bk mode).result = none →
        (∃ f, (readslide_new bk mode).fields = some f ∧ f.bands = 4 ∧
          f.format = VipsBandFormat.uchar ∧
          f.interpretation = VipsInterpretation.rgb ∧
          f.xres = 1 ∧ f.yres = 1) ∧
        ((readslide_new bk mode).associated = none →
          (readslide_new bk mode).hint = some DemandStyle.smalltile) ∧
        (∀ n, (readslide_new bk mode).associated = some n →
          (readslide_new bk mode).hint = some DemandStyle.thinstrip))
    ∧ (∀ (bk : Backend) (mode : String),
        (vips__openslide_read_file bk mode).rs.result = none →
          (vips__openslide_read_file bk mode).generator = true) := by
  constructor
  · intro bk mode h
    obtain ⟨L, A, heq⟩ := readslide_new_success_inv bk mode h
    rw [heq] at h ⊢
    refine ⟨⟨_, readslide_after_success_fields bk L A h, rfl, rfl, rfl, rfl, rfl⟩,
      ?_, ?_⟩
    · intro hA
      rw [(readslide_after_proj bk L A).2.2.2.1] at hA
      rw [(readslide_after_proj bk L A).2.2.2.2, hA]
      rfl
    · intro n hA
      rw [(readslide_after_proj bk L A).2.2.2.1] at hA
      rw [(readslide_after_proj bk L A).2.2.2.2, hA]
      rfl
  · intro bk mode h
    rw [read_file_rs] at h
    obtain ⟨L, A, heq⟩ := readslide_new_success_inv bk mode h
    have h2 : (readslide_after bk L A).result = none := heq ▸ h
    have hf := readslide_after_success_fields bk L A h2
    unfold vips__openslide_read_file
    dsimp only
    rw [heq, h2, hf]

/-- Witness for C4 on the well-behaved backend in layer mode. -/
theorem C4_skeleton_and_hints_witness :
    (readslide_new bkL "").result = none ∧
    ((∃ f, (readslide_new bkL "").fields = some f ∧ f.bands = 4 ∧
        f.format = VipsBandFormat.uchar ∧
        f.interpretation = VipsInterpretation.rgb ∧
        f.xres = 1 ∧ f.yres = 1) ∧
      ((readslide_new bkL "").associated = none →
        (readslide_new bkL "").hint = some DemandStyle.smalltile) ∧
      (∀ n, (readslide_new bkL "").associated = some n →
        (readslide_new bkL "").hint = some DemandStyle.thinstrip)) :=
  ⟨by decide, C4_skeleton_and_hints.1 bkL "" (by decide)⟩

/-- Claim C2 is false as stated: for image width 256 (tile edge 256) the code
installs a cache of `(int) (1.5 * (1 + 256/256)) = 3` tiles, while the spec
formula `ceil(1.5 * ceil(256/256))` gives 2 tiles. -/
theorem C2_cache_capacity_counterexample :
    (vips__openslide_read_file bk256 "").cacheArgs =
      some (TILE_WIDTH, TILE_HEIGHT, 3) ∧
    specCacheCapacity 256 TILE_WIDTH = 2 ∧
    (vips__openslide_read_file bk256 "").cacheArgs ≠
      some (TILE_WIDTH, TILE_HEIGHT, (specCacheCapacity 256 TILE_WIDTH : Int)) := by
  decide

/-- Claim C2, amended: the layer read path installs a 256x256 tile cache whose
capacity is `(int) (1.5 * (1 + imageWidth / 256))` tiles (integer division,
truncated), where imageWidth is the backend-reported layer width; for image
width 2000 this is 12 tiles, the value the claim names. -/
theorem C2_cache_capacity :
    (∀ (bk : Backend) (mode : String) (f : VipsImageFields),
      (vips__openslide_read_file bk mode).rs.result = none →
      (vips__openslide_read_file bk mode).rs.fields = some f →
        (vips__openslide_read_file bk mode).cacheArgs =
          some (TILE_WIDTH, TILE_HEIGHT,
            3 * (1 + f.width / (TILE_WIDTH : Int)) / 2) ∧
        ((vips__openslide_read_file bk mode).rs.associated = none →
          f.width =
            (bk.layerDims (vips__openslide_read_file bk mode).rs.layer).1))
    ∧ (vips__openslide_read_file bkL "").cacheArgs =
        some (TILE_WIDTH, TILE_HEIGHT, 12) := by
  constructor
  · intro bk mode f hres hf
    rw [read_file_rs] at hres hf
    obtain ⟨L, A, heq⟩ := readslide_new_success_inv bk mode hres
    have h2 : (readslide_after bk L A).result = none := heq ▸ hres
    have hfa := readslide_after_success_fields bk L A h2
    have hfeq : f = { width := (queriedDims bk L A).1,
                      height := (queriedDims bk L A).2, bands := 4,
                      format := VipsBandFormat.uchar,
                      coding := VipsCoding.noCoding,
                      interpretation := VipsInterpretation.rgb,
                      xres := 1, yres := 1 } := by
      rw [heq] at hf
      rw [hfa] at hf
      injection hf.symm
    constructor
    · unfold vips__openslide_read_file
      dsimp only
      rw [heq, h2, hfa, hfeq]
    · intro hA
      rw [read_file_rs, heq, (readslide_after_proj bk L A).2.2.2.1] at hA
      rw [read_file_rs, heq, (readslide_after_proj bk L A).2.2.1]
      rw [hfeq]
      subst hA
      rfl
  · decide

/-- Witness for C2 on the concrete 2000-wide backend. -/
theorem C2_cache_capacity_witness :
    (vips__openslide_read_file bkL "").rs.result = none ∧
    (vips__openslide_read_file bkL "").rs.fields = some
      { width := 2000, height := 1000, bands := 4,
        format := VipsBandFormat.uchar, coding := VipsCoding.noCoding,
        interpretation := VipsInterpretation.rgb, xres := 1, yres := 1 } ∧
    ((vips__openslide_read_file bkL "").cacheArgs =
      some (TILE_WIDTH, TILE_HEIGHT,
        3 * (1 + (2000 : Int) / (TILE_WIDTH : Int)) / 2) ∧
     ((vips__openslide_read_file bkL "").rs.associated = none →
        (2000 : Int) =
          (bkL.layerDims (vips__openslide_read_file bkL "").rs.layer).1)) :=
  ⟨by decide, by decide,
   C2_cache_capacity.1 bkL ""
     { width := 2000, height := 1000, bands := 4,
       format := VipsBandFormat.uchar, coding := VipsCoding.noCoding,
       interpretation := VipsInterpretation.rgb, xres := 1, yres := 1 }
     (by decide) (by decide)⟩

/-- Claim C6 is false as stated: with a backend whose open succeeds,
layerCount 3 and layer dimensions (-1,-1), mode "0" parses entirely as 0 with
0 <= 0 < layerCount, yet open fails (with DimensionQuery), refuting the
claimed equivalence of success with 0 <= n < layerCount. -/
theorem C6_layer_iff_counterexample :
    bkNeg.openOk = true ∧
    "0".data ≠ [] ∧
    (parseLong "0".data).2 = [] ∧
    strtolVal "0".data = 0 ∧
    (0 : Int) ≤ 0 ∧ (0 : Int) < bkNeg.layerCount ∧
    (readslide_new bkNeg "0").result ≠ none ∧
    (readslide_new bkNeg "0").result = some SlideError.DimensionQuery := by
  decide

lemma readslide_after_result_cases (bk : Backend) (layer : Int)
    (assoc : Option String) :
    (readslide_after bk layer assoc).result = none ∨
    (readslide_after bk layer assoc).result =
      some SlideError.DimensionQuery ∨
    (readslide_after bk layer assoc).result =
      some SlideError.DimensionOverflow := by
  unfold readslide_after
  dsimp only
  split_ifs <;> simp

/-- Claim C6, amended: for a mode string parsing entirely as an integer n in
int32 range, open fails with InvalidLayer iff n is outside [0, layerCount)
(an in-range n never produces InvalidLayer, whatever the backend later
reports); when n is in range, open succeeds provided the backend also
reports non-negative layer dimensions and downsample within the native int
range (the dimension checks the original claim omitted). -/
theorem C6_layer_selection (bk : Backend) (mode : String) (n : Int)
    (hopen : bk.openOk = true)
    (hne : mode.data ≠ [])
    (hfull : (parseLong mode.data).2 = [])
    (hval : strtolVal mode.data = n)
    (hlo : -2147483648 ≤ n) (hhi : n ≤ 2147483647) :
    ((readslide_new bk mode).result = some SlideError.InvalidLayer ↔
      ¬ (0 ≤ n ∧ n < bk.layerCount))
    ∧ ((0 ≤ n ∧ n < bk.layerCount ∧
        0 ≤ (bk.layerDims n).1 ∧ 0 ≤ (bk.layerDims n).2 ∧
        0 ≤ bk.layerDownsample n ∧
        (bk.layerDims n).1 ≤ INT_MAX ∧ (bk.layerDims n).2 ≤ INT_MAX) →
      (readslide_new bk mode).result = none) := by
  have hw : wrap32 n = n := by unfold wrap32; omega
  rw [readslide_new_layer_path bk mode hopen hne hfull, hval, hw]
  constructor
  · by_cases hin : 0 ≤ n ∧ n < bk.layerCount
    · rw [if_neg (by omega)]
      constructor
      · intro hfail
        rcases readslide_after_result_cases bk n none with h | h | h <;>
          rw [h] at hfail <;> exact absurd hfail (by simp)
      · intro hbad
        exact absurd hin hbad
    · rw [if_pos (by omega)]
      exact iff_of_true rfl hin
  · rintro ⟨h1, h2, h3, h4, h5, h6, h7⟩
    rw [if_neg (by omega)]
    rw [readslide_after_result_none_iff]
    exact ⟨h3, h4, h5, h6, h7⟩

/-- Witness for C6: layer 1 of the well-behaved 3-layer backend opens. -/
theorem C6_layer_selection_witness :
    (strtolVal "1".data = 1 ∧ (0 : Int) ≤ 1 ∧ (1 : Int) < bkL.layerCount) ∧
    (readslide_new bkL "1").result = none :=
  ⟨by decide,
   (C6_layer_selection bkL "1" 1 (by decide) (by decide) (by decide) (by decide)
     (by decide) (by decide)).2 (by decide)⟩

/-- Claim C7 is false as stated: "label" is in the backend's associated-name
set, yet open fails (with DimensionQuery) because the backend reports
associated dimensions (-1,-1), refuting the claimed equivalence of success
with name membership. -/
theorem C7_assoc_iff_counterexample :
    bkAssocNeg.openOk = true ∧
    "label" ∈ bkAssocNeg.associatedNames ∧
    (parseLong "label".data).2 ≠ [] ∧
    (readslide_new bkAssocNeg "label").result ≠ none ∧
    (readslide_new bkAssocNeg "label").result =
      some SlideError.DimensionQuery := by
  decide

/-- Claim C7, amended: for a non-empty mode string that does not parse
entirely as an integer, open fails with InvalidAssociatedName iff the name is
not in the backend's associated-name set (a member name never produces
InvalidAssociatedName, whatever the backend later reports); for a member
name, open succeeds in associated mode provided the backend also reports
non-negative associated dimensions within the native int range. -/
theorem C7_assoc_selection (bk : Backend) (mode : String)
    (hopen : bk.openOk = true)
    (hne : mode.data ≠ [])
    (hnint : (parseLong mode.data).2 ≠ []) :
    ((readslide_new bk mode).result =
        some SlideError.InvalidAssociatedName ↔
      mode ∉ bk.associatedNames)
    ∧ (mode ∈ bk.associatedNames →
        (0 ≤ (bk.assocDims mode).1 ∧ 0 ≤ (bk.assocDims mode).2 ∧
         (bk.assocDims mode).1 ≤ INT_MAX ∧ (bk.assocDims mode).2 ≤ INT_MAX) →
        (readslide_new bk mode).result = none ∧
        (readslide_new bk mode).associated = some mode) := by
  rw [readslide_new_assoc_path bk mode hopen hne hnint]
  constructor
  · by_cases hm : mode ∈ bk.associatedNames
    · rw [if_pos hm]
      constructor
      · intro hfail
        rcases readslide_after_result_cases bk (wrap32 (strtolVal mode.data))
            (some mode) with h | h | h <;>
          rw [h] at hfail <;> exact absurd hfail (by simp)
      · intro hnm
        exact absurd hm hnm
    · rw [if_neg hm]
      exact iff_of_true rfl hm
  · rintro hm ⟨h1, h2, h3, h4⟩
    rw [if_pos hm]
    constructor
    · rw [readslide_after_result_none_iff]
      exact ⟨h1, h2, by norm_num [queriedDs], h3, h4⟩
    · exact (readslide_after_proj bk _ (some mode)).2.2.2.1

/-- Witness for C7: associated image "label" of the well-behaved backend. -/
theorem C7_assoc_selection_witness :
    ("label" ∈ bkL.associatedNames ∧ 0 ≤ (bkL.assocDims "label").1) ∧
    ((readslide_new bkL "label").result = none ∧
     (readslide_new bkL "label").associated = some "label") :=
  ⟨by decide,
   (C7_assoc_selection bkL "label" (by decide) (by decide) (by decide)).2
     (by decide) (by decide)⟩

/-- Claim C8: when the backend reports the associated image's width or height
as the -1 sentinel, the associated read fails with DimensionQuery and no
pixel buffer is allocated (the failure already fires inside readslide_new's
dimension validation). -/
theorem C8_assoc_dimension_sentinel (bk : Backend) (mode : String)
    (hopen : bk.openOk = true)
    (hne : mode.data ≠ [])
    (hnint : (parseLong mode.data).2 ≠ [])
    (hmem : mode ∈ bk.associatedNames)
    (hdim : (bk.assocDims mode).1 = -1 ∨ (bk.assocDims mode).2 = -1) :
    (vips__openslide_read_associated bk mode).failure =
      some SlideError.DimensionQuery ∧
    (vips__openslide_read_associated bk mode).allocated = none ∧
    (vips__openslide_read_associated bk mode).rowsWritten = 0 := by
  have hrs : readslide_new bk mode =
      readslide_after bk (wrap32 (strtolVal mode.data)) (some mode) :=
    (readslide_new_assoc_path bk mode hopen hne hnint).trans (if_pos hmem)
  have hres : (readslide_after bk (wrap32 (strtolVal mode.data))
      (some mode)).result = some SlideError.DimensionQuery := by
    apply readslide_after_dim_fail
    rcases hdim with h | h
    · exact Or.inl (by simp [queriedDims, h])
    · exact Or.inr (Or.inl (by simp [queriedDims, h]))
  unfold vips__openslide_read_associated
  dsimp only
  rw [hrs, hres]
  exact ⟨rfl, rfl, rfl⟩

/-- Witness for C8 on the backend with associated dimensions (-1,-1). -/
theorem C8_assoc_dimension_sentinel_witness :
    ((bkAssocNeg.assocDims "label").1 = -1 ∨
      (bkAssocNeg.assocDims "label").2 = -1) ∧
    ((vips__openslide_read_associated bkAssocNeg "label").failure =
        some SlideError.DimensionQuery ∧
      (vips__openslide_read_associated bkAssocNeg "label").allocated = none ∧
      (vips__openslide_read_associated bkAssocNeg "label").rowsWritten = 0) :=
  ⟨by decide,
   C8_assoc_dimension_sentinel bkAssocNeg "label" (by decide) (by decide)
     (by decide) (by decide) (by decide)⟩

lemma parseLong_some_ne_nil {s : List Char} {n : Int}
    (h : (parseLong s).1 = some n) : s ≠ [] := by
  intro he
  subst he
  have h0 : (parseLong ([] : List Char)).1 = none := rfl
  rw [h0] at h
  exact Option.noConfusion h

/-- Claim C9, amended: an entirely-integer mode string is first clamped by
strtol to the signed 64-bit range and the result is truncated to int32
(mod 2^32, signed) when stored as the layer index, which is what is
validated against the layer count; in particular "4294967296" truncates to 0
and is accepted as layer 0. -/
theorem C9_layer_truncation :
    (∀ (bk : Backend) (mode : String) (n : Int), bk.openOk = true →
      (parseLong mode.data).1 = some n → (parseLong mode.data).2 = [] →
      (readslide_new bk mode).layer = wrap32 (clampLong n) ∧
      ((wrap32 (clampLong n) < 0 ∨ bk.layerCount ≤ wrap32 (clampLong n)) →
        (readslide_new bk mode).result = some SlideError.InvalidLayer))
    ∧ ((readslide_new bkL "4294967296").result = none ∧
       (readslide_new bkL "4294967296").layer = 0) := by
  constructor
  · intro bk mode n hopen hparse hfull
    have hne : mode.data ≠ [] := parseLong_some_ne_nil hparse
    have hval : strtolVal mode.data = clampLong n := by
      unfold strtolVal
      rw [hparse]
    rw [readslide_new_layer_path bk mode hopen hne hfull, hval]
    constructor
    · split_ifs with hv
      · rfl
      · exact (readslide_after_proj bk _ none).2.2.1
    · intro hbad
      rw [if_pos hbad]
      rfl
  · exact ⟨by decide, by decide⟩

/-- Witness for C9 at mode "5" on the 3-layer backend. -/
theorem C9_layer_truncation_witness :
    (parseLong "5".data).1 = some 5 ∧
    ((readslide_new bkL "5").layer = wrap32 (clampLong 5) ∧
      ((wrap32 (clampLong 5) < 0 ∨ bkL.layerCount ≤ wrap32 (clampLong 5)) →
        (readslide_new bkL "5").result = some SlideError.InvalidLayer)) :=
  ⟨by decide,
   C9_layer_truncation.1 bkL "5" 5 (by decide) (by decide) (by decide)⟩

/-- Claim C9 is false as stated for values beyond the long range: mode
"18446744073709551616" (2^64) parses entirely as an integer and 2^64 mod 2^32
is 0, which the claim would accept as layer 0, but strtol clamps to LONG_MAX
first, so the stored int32 layer is -1 and open fails with InvalidLayer. -/
theorem C9_truncation_counterexample :
    (parseLong "18446744073709551616".data).1 = some 18446744073709551616 ∧
    (parseLong "18446744073709551616".data).2 = [] ∧
    wrap32 18446744073709551616 = 0 ∧
    (0 : Int) < bkL.layerCount ∧
    (readslide_new bkL "18446744073709551616").layer = -1 ∧
    (readslide_new bkL "18446744073709551616").result =
      some SlideError.InvalidLayer := by
  decide

/-- Claim C10: the backend dimension query is a function of the name, so if
open succeeded in associated mode the validated dimensions are non-negative
and the re-query in the associated read path returns the same values; hence
its DimensionQuery branch is unreachable and the buffer is allocated. -/
theorem C10_requery_unreachable (bk : Backend) (mode name : String)
    (hres : (readslide_new bk mode).result = none)
    (hassoc : (readslide_new bk mode).associated = some name) :
    0 ≤ (bk.assocDims name).1 ∧ 0 ≤ (bk.assocDims name).2 ∧
    (vips__openslide_read_associated bk mode).failure ≠
      some SlideError.DimensionQuery ∧
    (vips__openslide_read_associated bk mode).allocated.isSome = true := by
  obtain ⟨hname, hmem, heq⟩ := readslide_new_associated_inv bk mode name hassoc
  rw [hname]
  have hres2 : (readslide_after bk (wrap32 (strtolVal mode.data))
      (some mode)).result = none := heq ▸ hres
  have hdims := (readslide_after_result_none_iff bk
    (wrap32 (strtolVal mode.data)) (some mode)).mp hres2
  have hd1 : 0 ≤ (bk.assocDims mode).1 := by
    have := hdims.1
    simpa [queriedDims] using this
  have hd2 : 0 ≤ (bk.assocDims mode).2 := by
    have := hdims.2.1
    simpa [queriedDims] using this
  refine ⟨hd1, hd2, ?_, ?_⟩
  all_goals {
    unfold vips__openslide_read_associated
    dsimp only
    rw [heq, hres2,
      (readslide_after_proj bk (wrap32 (strtolVal mode.data)) (some mode)).2.2.2.1]
    simp only [Option.isSome_none, Bool.false_eq_true, if_false]
    rw [if_neg (by omega)]
    cases hb : bk.errorMsg.isSome <;> simp [hb]
  }

/-- Witness for C10 on the well-behaved backend's "label" image. -/
theorem C10_requery_unreachable_witness :
    ((readslide_new bkL "label").result = none ∧
     (readslide_new bkL "label").associated = some "label") ∧
    (0 ≤ (bkL.assocDims "label").1 ∧ 0 ≤ (bkL.assocDims "label").2 ∧
     (vips__openslide_read_associated bkL "label").failure ≠
       some SlideError.DimensionQuery ∧
     (vips__openslide_read_associated bkL "label").allocated.isSome = true) :=
  ⟨⟨by decide, by decide⟩,
   C10_requery_unreachable bkL "label" "label" (by decide) (by decide)⟩
